import Mathlib

/-!
Shallow embedding of the shtrihm-fr driver core (src/shtrihmfr/kkt.py and
src/shtrihmfr/utils.py): the codec primitives, the request framing, the
response decoder and the retry loops of the frame transport.

Bytes are modelled as `Nat` values below 256 inside `List Nat`; Python byte
strings become `List Nat`.  Python functions that can raise are modelled with
explicit result inductives enumerating the exceptions the source can raise.
-/

namespace ShtrihM

/-- XOR reduction of a byte string, the body of `utils.get_control_summ`
(utils.py 126-133): `result = 0; for s in string: result ^= s`. -/
def xorFold (s : List Nat) : Nat := s.foldl Nat.xor 0

/-- `utils.get_control_summ` (utils.py 126-133): returns the one-byte string
`bytes([result])` where `result` is the XOR of all input bytes. -/
def get_control_summ (s : List Nat) : List Nat := [xorFold s]

/-- `BaseKKT.create_request` (kkt.py 248-259).  `command` and `params` are byte
strings (`force_bytes` is the identity on bytes); `params = none` models the
Python `params is None` case, where no parameter bytes are appended.
`bytes([length])` raises ValueError when `length > 255`, modelled as `none`;
otherwise the built frame `STX + content + control_summ` is returned, with
`content = bytes([length]) + data` and `control_summ = get_control_summ content`. -/
def create_request (command : List Nat) (params : Option (List Nat)) :
    Option (List Nat) :=
  let data := command ++ params.getD []
  let length := data.length
  if length ≤ 255 then
    some (0x02 :: ((length :: data) ++ get_control_summ (length :: data)))
  else
    none

/-- Little-endian value of a byte string, as computed by Python
`int.from_bytes(value, byteorder=little)` on an unsigned reading. -/
def from_bytes_le : List Nat → Nat
  | [] => 0
  | b :: rest => b + 256 * from_bytes_le rest

/-- `Int5.pack` (utils.py 70-72): `value.to_bytes(5, byteorder=little,
signed=True)`.  Python raises OverflowError when the value does not fit a
signed 5-byte integer, modelled as `none`; otherwise the five little-endian
bytes of the value taken modulo 2^40 (= 1099511627776) are produced. -/
def int5_pack (n : Int) : Option (List Nat) :=
  if n < -(549755813888 : Int) ∨ (549755813888 : Int) ≤ n then
    none
  else
    let m : Nat := (n % 1099511627776).toNat
    some [m % 256, m / 256 % 256, m / 65536 % 256,
          m / 16777216 % 256, m / 4294967296 % 256]

/-- `Int5.unpack` (utils.py 74-76): `int.from_bytes(value, byteorder=little,
signed=True)`: the unsigned little-endian value, shifted down by 2^(8*len)
when its top bit is set. -/
def int5_unpack (bs : List Nat) : Int :=
  let u := from_bytes_le bs
  if 2 ^ (8 * bs.length) ≤ 2 * u then
    (u : Int) - 2 ^ (8 * bs.length)
  else
    (u : Int)

/-- Decoded response record `{command, error, data}` built at the end of
`BaseKKT.read_response` (kkt.py 319-323). -/
structure Response where
  command : List Nat
  error : Nat
  data : List Nat
deriving Repr, DecidableEq

/-- Outcome of one `BaseKKT.read_response` attempt on one already-read frame. -/
inductive ReadResult
  /-- `previous=True`: ACK written, frame discarded, `None` returned. -/
  | cleanup
  /-- NAK written and `send_request` re-entered (truncated body or LRC
  mismatch). -/
  | resend
  /-- the `assert self._command == response_command` failed: AssertionError. -/
  | assertErr
  /-- `ord(error)` on an empty error slice: TypeError. -/
  | typeErr
  /-- the decoded record, stored in `self._response` and returned. -/
  | ok (r : Response)
deriving Repr, DecidableEq

/-- `BaseKKT.read_response` (kkt.py 275-324) on one response frame.
`command` is the sent command (`self._command`), `lengthByte` the length byte
read first, `response` the bytes returned by `self._read(length)` (at most
`lengthByte` of them), `control` the byte string read for the LRC.  Mirrors
the source order: the `previous` early return, the truncated-read NAK+resend,
the command-echo assert, the LRC comparison (NAK+resend on mismatch), then the
record construction, whose `ord(error)` raises TypeError when the error slice
is empty. -/
def read_response (command : List Nat) (lengthByte : Nat)
    (response control : List Nat) (previous : Bool) : ReadResult :=
  if previous then
    .cleanup
  else if response.length ≠ lengthByte then
    .resend
  else if command ≠ response.take command.length then
    .assertErr
  else if control ≠ get_control_summ (response.length ::
      (response.take command.length ++ (response.drop command.length).take 1 ++
        response.drop (command.length + 1))) then
    .resend
  else
    match (response.drop command.length).take 1 with
    | [e] =>
      .ok ⟨response.take command.length, e, response.drop (command.length + 1)⟩
    | _ => .typeErr

/-- Outcome of the retry loop of `BaseKKT.ask` (kkt.py 216-227). -/
inductive AskResult
  /-- the triple `(r[data], r[error], r[command])` returned by `ask`. -/
  | ret (data : List Nat) (error : Nat) (command : List Nat)
  /-- `raise KktError(r[error])`. -/
  | kktError (e : Nat)
  /-- `r` was never assigned (only when the loop runs zero iterations). -/
  | nameErr
deriving Repr, DecidableEq

/-- Retry loop of `BaseKKT.ask` (kkt.py 216-227).  `resps` lists the response
record decoded by `send_ENQ` in each of the `MAX_ATTEMPT` iterations, so
`resps.length` plays the role of `MAX_ATTEMPT` (its concrete value lives in
the absent conf module and never matters here).  Mirrors the source: on error
0x50 sleep and `continue` (when iterations remain), on any other non-zero
error raise KktError, otherwise `break`; after the loop the last record `r` is
returned as `(r[data], r[error], r[command])` - also when the loop was
exhausted by `continue`. -/
def ask_loop : List Response → AskResult
  | [] => .nameErr
  | r :: rest =>
    if r.error = 0x50 then
      match rest with
      | [] => .ret r.data r.error r.command
      | _ :: _ => ask_loop rest
    else if r.error ≠ 0 then
      .kktError r.error
    else
      .ret r.data r.error r.command

/-- Outcome of `BaseKKT.send_ENQ` / `BaseKKT.wait_STX` (kkt.py 229-246 and
326-338) before any response frame is decoded. -/
inductive EnqResult
  /-- NAK received with `previous=True`: plain `return`. -/
  | okPrevious
  /-- NAK received with `previous=False`: `return self.send_request()`. -/
  | sendRequest (rest : List (Option Nat))
  /-- STX received inside `wait_STX`: `return self.read_response(previous)`,
  with the unread rest of the reply stream. -/
  | readResponse (previous : Bool) (rest : List (Option Nat))
  /-- `raise ConnectionError` (no reply to ENQ, or `stx_loop` exhausted). -/
  | connErr
  /-- `raise RuntimeError` (STX wait timed out). -/
  | runtimeErr
deriving Repr, DecidableEq

/-- Phase of the ENQ handshake recursion: `enq` for `send_ENQ`, `stx` for
`wait_STX`. -/
inductive EnqMode
  | enq
  | stx
deriving Repr, DecidableEq

/-- Combined recursion of `BaseKKT.send_ENQ` (kkt.py 229-246) and
`BaseKKT.wait_STX` (kkt.py 326-338), one function so that the recursion is
structural on the reply stream.  Each element of `answers` is the answer byte
obtained by one probe - the source reads one byte and, when that read is
empty, retries once after a sleep; `none` stands for both reads empty.  In
`enq` mode: no answer raises ConnectionError; NAK (0x15) returns (previous) or
enters `send_request`; ACK (0x06) enters `wait_STX` with the same `stx_loop`;
any other byte sleeps and re-enters `send_ENQ` - the source calls
`self.send_ENQ(previous=previous)` there, dropping `stx_loop` back to its
default 0.  In `stx` mode: no answer raises RuntimeError; STX (0x02) proceeds
to `read_response`; any other byte re-enters `send_ENQ` with `stx_loop + 1`
when `stx_loop < 10` and raises ConnectionError otherwise. -/
def enq_machine : List (Option Nat) → EnqMode → Nat → Bool → EnqResult
  | [], .enq, _, _ => .connErr
  | [], .stx, _, _ => .runtimeErr
  | none :: _, .enq, _, _ => .connErr
  | none :: _, .stx, _, _ => .runtimeErr
  | some b :: rest, .enq, stx_loop, previous =>
    if b = 0x15 then
      if previous then .okPrevious else .sendRequest rest
    else if b = 0x06 then
      enq_machine rest .stx stx_loop previous
    else
      enq_machine rest .enq 0 previous
  | some b :: rest, .stx, stx_loop, previous =>
    if b = 0x02 then
      .readResponse previous rest
    else if stx_loop < 10 then
      enq_machine rest .enq (stx_loop + 1) previous
    else
      .connErr

/-- `BaseKKT.send_ENQ` (kkt.py 229-246) over a reply stream. -/
def send_ENQ (answers : List (Option Nat)) (stx_loop : Nat) (previous : Bool) :
    EnqResult :=
  enq_machine answers .enq stx_loop previous

/-- `BaseKKT.wait_STX` (kkt.py 326-338) over a reply stream. -/
def wait_STX (answers : List (Option Nat)) (stx_loop : Nat) (previous : Bool) :
    EnqResult :=
  enq_machine answers .stx stx_loop previous

/-- Outcome of a command method's local argument processing, before any serial
exchange. -/
inductive CmdResult
  /-- the parameter byte string handed to `ask`. -/
  | ok (params : List Nat)
  /-- `raise KktError(...)` from an argument check. -/
  | kktError
  /-- Python TypeError. -/
  | typeError
  /-- Python AssertionError from a bare `assert`. -/
  | assertionError
  /-- Python OverflowError from `int.to_bytes`. -/
  | overflowError
  /-- Python struct.error from `struct.pack`. -/
  | structError
deriving Repr, DecidableEq

/-- Parameter construction of `KKT._x8summa` (kkt.py 557-595), shared by
commands 0x86, 0x87, 0x8A and 0x8B.  `summa` is the already scaled integer
(the `money2integer` result), `text` the WIN1251-encoded bytes of the text
(one byte per character in that code page), `taxes` the tax list.  The checks
are in source order; past them the source runs
`text.encode(CODE_PAGE).ljust(40, chr(0x0))`, and CPython `bytes.ljust`
requires a one-byte bytes fill character and raises TypeError on the `str`
fill `chr(0x0)` regardless of the text length, so the method never reaches
`ask`. -/
def x8summa_params (password : List Nat) (summa : Int) (text : List Nat)
    (taxes : List Int) : CmdResult :=
  if summa < 0 ∨ 9999999999 < summa then
    .kktError
  else if 40 < text.length then
    .kktError
  else if taxes.length ≠ 4 then
    .kktError
  else if ¬ ∀ t ∈ taxes, 0 ≤ t ∧ t < 5 then
    .kktError
  else
    .typeError

/-- Parameter construction of `KKT._x8count` (kkt.py 373-404), shared by
commands 0x80-0x84.  `count` and `price` are the already scaled integers, the
other arguments as in `x8summa_params`.  Here the text pad uses the bytes fill
`bytes([0x0])`, so the parameters are built: password, `int5`-packed count and
price, one department byte, the four tax bytes, and the text right-padded
with 0x00 to 40 bytes. -/
def x8count_params (password : List Nat) (count price : Int) (text : List Nat)
    (department : Int) (taxes : List Int) : CmdResult :=
  if count < 0 ∨ 9999999999 < count then
    .kktError
  else if price < 0 ∨ 9999999999 < price then
    .kktError
  else if ¬ (0 ≤ department ∧ department < 17) then
    .kktError
  else if 40 < text.length then
    .kktError
  else if taxes.length ≠ 4 then
    .kktError
  else if ¬ ∀ t ∈ taxes, 0 ≤ t ∧ t < 5 then
    .kktError
  else
    match int5_pack count, int5_pack price with
    | some c, some p =>
      .ok (password ++ c ++ p ++ [department.toNat] ++
           (taxes.map Int.toNat) ++ (text ++ List.replicate (40 - text.length) 0))
    | _, _ => .overflowError

/-- `KKT.x8D` (kkt.py 715-736): the document-type check
`document_type not in range(4)` raises KktError; past it the source builds
`self.password + chr(document_type)`, and concatenating `bytes` with `str`
raises TypeError in Python 3, so the method never reaches `ask`. -/
def x8D (document_type : Int) : CmdResult :=
  if ¬ (0 ≤ document_type ∧ document_type < 4) then
    .kktError
  else
    .typeError

/-- Parameter construction of `KKT.x8E` (kkt.py 738-783).  `payments` are the
already scaled integers (`money2integer` results), `taxes` the tax list,
`text` the encoded text bytes, `discount_percent` the discount.  Source
order: `assert len(payments) == 16`; each payment is `int5.pack`-ed
(OverflowError outside the signed 5-byte range, with no narrower range
check); `int2.pack(discount_percent)` packs with struct format h
(struct.error outside the signed 2-byte range, again no narrower check);
`assert len(taxes) == 4`; then the loop `params += chr(val)` concatenates
`bytes` with `str` and raises TypeError on the first tax value, so the method
never reaches the text step or `ask`. -/
def x8E_params (password : List Nat) (payments : List Int) (taxes : List Int)
    (text : List Nat) (discount_percent : Int) : CmdResult :=
  if payments.length ≠ 16 then
    .assertionError
  else if ¬ ∀ v ∈ payments, -(549755813888 : Int) ≤ v ∧ v < 549755813888 then
    .overflowError
  else if ¬ (-(32768 : Int) ≤ discount_percent ∧ discount_percent < 32768) then
    .structError
  else if taxes.length ≠ 4 then
    .assertionError
  else
    .typeError

/-- Four little-endian base-256 digits of `m`, the bytes produced by
`struct.pack` with format i on a little-endian host for a value whose
residue modulo 2^32 is `m`. -/
def int4_le (m : Nat) : List Nat :=
  [m % 256, m / 256 % 256, m / 65536 % 256, m / 16777216 % 256]

/-- Argument of `utils.password_prapare`: a Python int, or a list/tuple of
byte values. -/
inductive PwInput
  | int (n : Int)
  | seq (l : List Nat)
deriving Repr, DecidableEq

/-- Outcome of `utils.password_prapare`. -/
inductive PwResult
  /-- the returned 4-byte (or shorter, for short sequences) string. -/
  | ok (bs : List Nat)
  /-- `raise ValueError` for `password > 9999`. -/
  | valueError
  /-- `raise TypeError` when `digits2string` fails on the sequence. -/
  | typeError
  /-- struct.error from `int4.pack` outside the signed 4-byte range. -/
  | structError
deriving Repr, DecidableEq

/-- `utils.password_prapare` (utils.py 142-155).  A list or tuple is cut to
its first 4 elements and mapped through `digits2string` (TypeError when an
element is no byte value).  An integer is rejected with ValueError only when
it exceeds 9999 - there is no lower bound check - and is otherwise packed by
`int4` (struct format i, little-endian 4 bytes, struct.error outside the
signed 32-bit range; in range, the bytes of the value modulo 2^32). -/
def password_prapare : PwInput → PwResult
  | .seq l =>
    if ∀ x ∈ l.take 4, x < 256 then .ok (l.take 4) else .typeError
  | .int n =>
    if 9999 < n then
      .valueError
    else if n < -(2147483648 : Int) ∨ (2147483648 : Int) ≤ n then
      .structError
    else
      .ok (int4_le (n % 4294967296).toNat)

/-- C10: appending the checksum of a byte string to the string makes the XOR
reduction vanish, `get_control_summ (s ++ get_control_summ s) = bytes([0x00])`,
and the checksum of the empty byte string is `bytes([0x00])`; this makes the
receiver's LRC comparison in `read_response` equivalent to checking that the
whole LEN..LRC span XORs to zero. -/
theorem get_control_summ_self_cancel (s : List Nat) :
    get_control_summ (s ++ get_control_summ s) = [0x00] ∧
    get_control_summ ([] : List Nat) = [0x00] := by
  refine ⟨?_, rfl⟩
  have hx : xorFold (s ++ [xorFold s]) = 0 := by
    simp only [xorFold, List.foldl_append, List.foldl_cons, List.foldl_nil]
    exact Nat.xor_self _
  show [xorFold (s ++ [xorFold s])] = [0]
  rw [hx]

/-- Helper: the last byte of `c :: (l ++ [xorFold l])` is the XOR reduction of
the frame's slice between its first and last bytes. -/
theorem getLast_xor_helper (c : Nat) (l : List Nat) :
    (c :: (l ++ [xorFold l])).getLast? =
      some (xorFold (((c :: (l ++ [xorFold l])).drop 1).dropLast)) := by
  have h1 : c :: (l ++ [xorFold l]) = (c :: l) ++ [xorFold l] := by simp
  rw [h1, List.getLast?_concat]
  have h2 : ((c :: l) ++ [xorFold l]).drop 1 = l ++ [xorFold l] := by simp
  rw [h2, List.dropLast_concat]

/-- C1: every frame F built by `create_request` from a command byte string and
a parameter byte string satisfies `F[0] = STX = 0x02`,
`F[1] = len(CMD) + len(PARAMS) = len(F) - 3`, and the last byte of F is the
XOR of the bytes `F[1..len(F)-2]` (Python `F[1:-1]`). -/
theorem create_request_framing (command params F : List Nat)
    (h : create_request command (some params) = some F) :
    F.head? = some 0x02 ∧
    F[1]? = some (command.length + params.length) ∧
    F.length = command.length + params.length + 3 ∧
    F.getLast? = some (xorFold ((F.drop 1).dropLast)) := by
  unfold create_request at h
  simp only [Option.getD_some] at h
  split at h
  · rename_i hlen
    injection h with h
    subst h
    refine ⟨rfl, ?_, ?_, ?_⟩
    · simp [get_control_summ]
    · simp [get_control_summ]
      omega
    · exact getLast_xor_helper 0x02
        ((command ++ params).length :: (command ++ params))
  · cases h

/-- C1 witness: the frame built for command 0x80 with the four password bytes
30 00 00 00 satisfies the framing invariants. -/
theorem create_request_framing_witness :
    ([0x02, 5, 0x80, 30, 0, 0, 0, 155] : List Nat).head? = some 0x02 ∧
    ([0x02, 5, 0x80, 30, 0, 0, 0, 155] : List Nat)[1]? =
      some ([0x80].length + [30, 0, 0, 0].length) ∧
    ([0x02, 5, 0x80, 30, 0, 0, 0, 155] : List Nat).length =
      [0x80].length + [30, 0, 0, 0].length + 3 ∧
    ([0x02, 5, 0x80, 30, 0, 0, 0, 155] : List Nat).getLast? =
      some (xorFold ((([0x02, 5, 0x80, 30, 0, 0, 0, 155] : List Nat).drop
        1).dropLast)) :=
  create_request_framing [0x80] [30, 0, 0, 0]
    [0x02, 5, 0x80, 30, 0, 0, 0, 155] (by decide)

/-- C2: whenever `read_response` returns a decoded response record, the record
command byte string equals the sent command; and when the echoed command
differs from the sent command (on a frame whose body length matches its
length byte), the decoder raises AssertionError instead of returning. -/
theorem read_response_command_echo (command : List Nat) (lengthByte : Nat)
    (response control : List Nat) (previous : Bool) (r : Response) :
    (read_response command lengthByte response control previous = .ok r →
      r.command = command) ∧
    (previous = false → response.length = lengthByte →
      command ≠ response.take command.length →
      read_response command lengthByte response control previous =
        .assertErr) := by
  constructor
  · intro h
    unfold read_response at h
    split at h
    · cases h
    · split at h
      · cases h
      · split at h
        · cases h
        · rename_i hcmd
          split at h
          · cases h
          · split at h
            · rename_i e heq
              injection h with h
              subst h
              simpa using (not_ne_iff.mp hcmd).symm
            · cases h
  · intro hprev hlen hcmd
    unfold read_response
    simp [hprev, hlen, hcmd]

/-- C2 witness: a well-formed response frame echoing command 0x80 decodes to a
record whose command is 0x80, and a frame echoing 0x81 instead raises. -/
theorem read_response_command_echo_witness :
    (⟨[0x80], 0, [7]⟩ : Response).command = [0x80] ∧
    read_response [0x80] 3 [0x81, 0, 7] [133] false = .assertErr :=
  ⟨(read_response_command_echo [0x80] 3 [0x80, 0, 7] [132] false
      ⟨[0x80], 0, [7]⟩).1 (by decide),
   (read_response_command_echo [0x80] 3 [0x81, 0, 7] [133] false
      ⟨[], 0, []⟩).2 rfl (by decide) (by decide)⟩

/-- C3 counterexample: with MAX_ATTEMPT = 3 iterations, a device answering
busy (error 0x50) on every iteration makes the retry loop of `ask` fall out
of the loop and return the busy record - error byte 0x50 - to the caller; no
connection error is raised, refuting the claim. -/
theorem ask_loop_busy_counterexample :
    ask_loop (List.replicate 3 ⟨[0x40], 0x50, []⟩) = .ret [] 0x50 [0x40] := by
  decide

/-- C3 amended: for every positive MAX_ATTEMPT, when every retry iteration of
`ask` decodes a busy response (error byte 0x50), the loop exhausts its bound
and `ask` returns that busy record `(data, 0x50, command)` to the caller
instead of raising a connection error. -/
theorem ask_loop_busy_returns (r : Response) (h : r.error = 0x50) :
    ∀ n : Nat, ask_loop (List.replicate (n + 1) r) =
      .ret r.data r.error r.command := by
  intro n
  induction n with
  | zero =>
    show ask_loop [r] = _
    show (if r.error = 0x50 then _ else _) = _
    rw [if_pos h]
  | succ k ih =>
    show ask_loop (r :: List.replicate (k + 1) r) = _
    rw [show ask_loop (r :: List.replicate (k + 1) r) =
        if r.error = 0x50 then ask_loop (List.replicate (k + 1) r)
        else if r.error ≠ 0 then .kktError r.error
        else .ret r.data r.error r.command from rfl]
    rw [if_pos h]
    exact ih

/-- C3 amended witness: two consecutive busy responses make `ask` return the
busy record. -/
theorem ask_loop_busy_returns_witness :
    ask_loop (List.replicate 2 ⟨[0x40], 0x50, []⟩) = .ret [] 0x50 [0x40] :=
  ask_loop_busy_returns ⟨[0x40], 0x50, []⟩ rfl 1

/-- C4 counterexample: a device answering twelve garbage bytes (0x55) to the
ENQ probe and then NAK does not make `send_ENQ` raise after 10 retries - the
thirteenth probe sees the NAK and the call returns normally, because the
garbage branch of `send_ENQ` re-enters itself without threading `stx_loop`
(kkt.py 246), so the 10-iteration bound of `wait_STX` never applies to it. -/
theorem send_ENQ_garbage_counterexample :
    send_ENQ (List.replicate 12 (some 0x55) ++ [some 0x15]) 0 true =
      .okPrevious := by
  decide

/-- C4 amended: `send_ENQ` retries the ENQ probe on garbage reply bytes
without any iteration bound - after ANY number of garbage replies a NAK still
ends the previous-cleanup probe normally - and on a finite all-garbage reply
sequence it terminates by raising a connection error only once the reply
stream is exhausted (both reads empty); the 10-iteration `stx_loop` bound
governs only the ACK-then-non-STX path inside `wait_STX`. -/
theorem send_ENQ_garbage_unbounded (n : Nat) :
    send_ENQ (List.replicate n (some 0x55) ++ [some 0x15]) 0 true =
      .okPrevious ∧
    send_ENQ (List.replicate n (some 0x55)) 0 true = .connErr := by
  induction n with
  | zero => exact ⟨rfl, rfl⟩
  | succ k ih =>
    refine ⟨?_, ?_⟩
    · show send_ENQ (some 0x55 :: (List.replicate k (some 0x55) ++ [some 0x15]))
        0 true = _
      rw [show send_ENQ (some 0x55 ::
            (List.replicate k (some 0x55) ++ [some 0x15])) 0 true =
          send_ENQ (List.replicate k (some 0x55) ++ [some 0x15]) 0 true
        from rfl]
      exact ih.1
    · show send_ENQ (some 0x55 :: List.replicate k (some 0x55)) 0 true = _
      rw [show send_ENQ (some 0x55 :: List.replicate k (some 0x55)) 0 true =
          send_ENQ (List.replicate k (some 0x55)) 0 true from rfl]
      exact ih.2

/-- C9: for every integer n in the signed 5-byte range [-(2^39), 2^39 - 1],
`int5.pack` produces exactly 5 bytes (little-endian, signed two's complement)
and `int5.unpack (int5.pack n) = n`. -/
theorem int5_roundtrip (n : Int) (h1 : -(2 ^ 39) ≤ n) (h2 : n ≤ 2 ^ 39 - 1) :
    ∃ bs, int5_pack n = some bs ∧ bs.length = 5 ∧ int5_unpack bs = n := by
  have hpow : (2 : Int) ^ 39 = 549755813888 := by norm_num
  rw [hpow] at h1 h2
  have hcond : ¬ (n < -(549755813888 : Int) ∨ (549755813888 : Int) ≤ n) := by
    omega
  refine ⟨[(n % 1099511627776).toNat % 256,
           (n % 1099511627776).toNat / 256 % 256,
           (n % 1099511627776).toNat / 65536 % 256,
           (n % 1099511627776).toNat / 16777216 % 256,
           (n % 1099511627776).toNat / 4294967296 % 256], ?_, rfl, ?_⟩
  · unfold int5_pack
    rw [if_neg hcond]
  · have hm0 : (0 : Int) ≤ n % 1099511627776 :=
      Int.emod_nonneg n (by norm_num)
    have hm1 : n % 1099511627776 < 1099511627776 :=
      Int.emod_lt_of_pos n (by norm_num)
    simp only [int5_unpack, from_bytes_le, List.length_cons, List.length_nil]
    norm_num
    split
    · omega
    · omega

/-- C9 witness: the negative value -2 round-trips through five bytes. -/
theorem int5_roundtrip_witness :
    ∃ bs, int5_pack (-2) = some bs ∧ bs.length = 5 ∧ int5_unpack bs = -2 :=
  int5_roundtrip (-2) (by norm_num) (by norm_num)

/-- C8 counterexample: `password_prapare(-1)` does not raise - the source only
checks `password > 9999` - and instead returns the two's-complement bytes
ff ff ff ff, refuting the claim that every integer outside [0, 9999] is
rejected. -/
theorem password_prapare_negative_counterexample :
    password_prapare (.int (-1)) = .ok [255, 255, 255, 255] := by
  decide

/-- C8 amended: `password_prapare` maps every integer in [0, 9999] to its
4-byte little-endian encoding, maps the first four elements of a byte
sequence verbatim (a 4-element byte sequence is passed through whole), and
raises ValueError exactly for integers above 9999; integers below 0 are NOT
rejected - any n in [-2^31, -1] is accepted and encoded as the 4-byte
little-endian two's complement of n. -/
theorem password_prapare_spec (n : Int) (l : List Nat) :
    (0 ≤ n → n ≤ 9999 → password_prapare (.int n) = .ok (int4_le n.toNat)) ∧
    (9999 < n → password_prapare (.int n) = .valueError) ∧
    (-(2147483648 : Int) ≤ n → n < 0 →
      password_prapare (.int n) = .ok (int4_le (n + 4294967296).toNat)) ∧
    (l.length = 4 → (∀ x ∈ l, x < 256) → password_prapare (.seq l) = .ok l) := by
  refine ⟨?_, ?_, ?_, ?_⟩
  · intro h0 h1
    show (if 9999 < n then _ else _) = _
    rw [if_neg (by omega), if_neg (by omega)]
    have hmn : (n % 4294967296).toNat = n.toNat := by omega
    rw [hmn]
  · intro h
    show (if 9999 < n then _ else _) = _
    rw [if_pos h]
  · intro h0 h1
    show (if 9999 < n then _ else _) = _
    rw [if_neg (by omega), if_neg (by omega)]
    have hmn : (n % 4294967296).toNat = (n + 4294967296).toNat := by omega
    rw [hmn]
  · intro hl hb
    have ht : l.take 4 = l := by
      rw [← hl]
      exact List.take_length l
    show (if ∀ x ∈ l.take 4, x < 256 then _ else _) = _
    rw [ht, if_pos hb]

/-- C8 amended witness: 3 encodes little-endian, 10000 raises ValueError, -1
is accepted as ff ff ff ff, and a 4-element sequence passes through. -/
theorem password_prapare_spec_witness :
    password_prapare (.int 3) = .ok (int4_le (3 : Int).toNat) ∧
    password_prapare (.int 10000) = .valueError ∧
    password_prapare (.int (-1)) = .ok (int4_le ((-1 : Int) + 4294967296).toNat) ∧
    password_prapare (.seq [1, 2, 3, 4]) = .ok [1, 2, 3, 4] :=
  ⟨(password_prapare_spec 3 []).1 (by norm_num) (by norm_num),
   (password_prapare_spec 10000 []).2.1 (by norm_num),
   (password_prapare_spec (-1) []).2.2.1 (by norm_num) (by norm_num),
   (password_prapare_spec 0 [1, 2, 3, 4]).2.2.2 rfl (by decide)⟩

/-- C5: commands 0x86/0x87/0x8A/0x8B (`_x8summa`) do NOT transmit a 40-byte
0x00-padded text - every call that passes validation, even with empty text,
raises TypeError at `text.encode(CODE_PAGE).ljust(40, chr(0x0))`, because
`bytes.ljust` rejects a `str` fill character; in contrast the byte padding of
commands 0x80-0x85 (`_x8count`, fill `bytes([0x0])`) builds the parameters,
with the text right-padded with 0x00 to exactly 40 bytes. -/
theorem x8summa_text_typeerror :
    x8summa_params [30, 0, 0, 0] 100 [] [0, 0, 0, 0] = .typeError ∧
    x8summa_params [30, 0, 0, 0] 100 [65] [0, 0, 0, 0] = .typeError ∧
    x8count_params [30, 0, 0, 0] 1000 10000 [65] 0 [0, 0, 0, 0] =
      .ok ([30, 0, 0, 0] ++ [232, 3, 0, 0, 0] ++ [16, 39, 0, 0, 0] ++ [0] ++
        [0, 0, 0, 0] ++ ([65] ++ List.replicate 39 0)) := by
  decide

/-- C6: `x8D` raises TypeError - not a successful exchange - for every valid
document type in {0, 1, 2, 3}, because `self.password + chr(document_type)`
concatenates bytes with str; the rejection of invalid document types (for
example 4, or -1) with a local KktError does hold. -/
theorem x8D_typeerror :
    x8D 0 = .typeError ∧ x8D 1 = .typeError ∧ x8D 2 = .typeError ∧
    x8D 3 = .typeError ∧ x8D 4 = .kktError ∧ x8D (-1) = .kktError := by
  decide

/-- C7: `x8E` applies none of the claimed local range validations: a scaled
payment amount of 10000000000 (outside [0, 9999999999]), a discount of 10000
(outside [-9999, 9999]), a tax element of 5 (outside [0, 4]) and a text of 41
characters are all let through the argument checks, and every such call then
raises TypeError (bytes + str concatenation of the tax bytes) rather than the
claimed local device error (KktError). -/
theorem x8E_no_validation :
    x8E_params [30, 0, 0, 0] (List.replicate 16 0) [0, 0, 0, 0] [] 10000 =
      .typeError ∧
    x8E_params [30, 0, 0, 0] (10000000000 :: List.replicate 15 0) [0, 0, 0, 0]
      [] 0 = .typeError ∧
    x8E_params [30, 0, 0, 0] (List.replicate 16 0) [0, 0, 0, 5] [] 0 =
      .typeError ∧
    x8E_params [30, 0, 0, 0] (List.replicate 16 0) [0, 0, 0, 0]
      (List.replicate 41 0) 0 = .typeError := by
  decide

end ShtrihM
